import Mathlib

/-!
Shallow embedding of the presentation app's Edit Staging & Session
Persistence engine (src/backend/models.py, agent.py, session.py).

Python dicts that carry a fixed key set are modelled as Lean structures
whose fields of type Option mirror optional keys (a key that may be
absent is an Option, with none standing for the absent key).  Raised
exceptions are modelled as Option-valued results (none = raise).
Nondeterministic environment inputs (uuid4, datetime.now) are passed in
as explicit arguments.  File-system and SQLite state are modelled as
association lists keyed by session id.
-/

namespace PresentationApp

/-- models.py SlideLayout: the closed enum of layouts. -/
inductive SlideLayout where
  | title
  | title_content
  | two_column
  | blank
deriving DecidableEq, Repr

/-- The .value string of a SlideLayout member. -/
def SlideLayout.value : SlideLayout → String
  | .title => "title"
  | .title_content => "title_content"
  | .two_column => "two_column"
  | .blank => "blank"

/-- Python SlideLayout(s) constructor lookup: some member on a known
value string, none models the ValueError raised on an unknown one. -/
def slideLayoutOfString (s : String) : Option SlideLayout :=
  if s = "title" then some .title
  else if s = "title_content" then some .title_content
  else if s = "two_column" then some .two_column
  else if s = "blank" then some .blank
  else none

/-- models.py Slide. Indices are Int because Python ints are signed. -/
structure Slide where
  index : Int
  html : String
  layout : SlideLayout
  notes : String
deriving DecidableEq, Repr

/-- Dictionary form of a Slide (Slide.to_dict output / from_dict input).
layout and notes keys may be absent in from_dict input. -/
structure SlideDict where
  index : Int
  html : String
  layout : Option String
  notes : Option String
deriving DecidableEq, Repr

/-- models.py Slide.to_dict. -/
def Slide.to_dict (s : Slide) : SlideDict :=
  { index := s.index, html := s.html, layout := some s.layout.value, notes := some s.notes }

/-- models.py Slide.from_dict.  SlideLayout(data.get("layout", "blank"))
raises ValueError on an unknown layout string, modelled as none. -/
def Slide.from_dict (d : SlideDict) : Option Slide :=
  match slideLayoutOfString (d.layout.getD "blank") with
  | none => none
  | some lay => some { index := d.index, html := d.html, layout := lay, notes := d.notes.getD "" }

/-- models.py Presentation.  theme is an open string-keyed mapping whose
values are opaque to the core; modelled as an association list. -/
structure Presentation where
  title : String
  slides : List Slide
  theme : List (String × String)
deriving DecidableEq, Repr

/-- Dictionary form of a Presentation. -/
structure PresentationDict where
  title : String
  slides : List SlideDict
  theme : List (String × String)
deriving DecidableEq, Repr

/-- models.py Presentation.to_dict. -/
def Presentation.to_dict (p : Presentation) : PresentationDict :=
  { title := p.title, slides := p.slides.map Slide.to_dict, theme := p.theme }

/-- The list comprehension [Slide.from_dict(s) for s in ...]: a raise in
any element aborts the whole construction. -/
def slidesFromDicts : List SlideDict → Option (List Slide)
  | [] => some []
  | d :: t =>
    match Slide.from_dict d, slidesFromDicts t with
    | some s, some rest => some (s :: rest)
    | _, _ => none

/-- models.py Presentation.from_dict. -/
def Presentation.from_dict (d : PresentationDict) : Option Presentation :=
  match slidesFromDicts d.slides with
  | none => none
  | some sl => some { title := d.title, slides := sl, theme := d.theme }

/-- The params dict of a PendingEdit: for ADD html+layout, for UPDATE
html, for REORDER to_index, for DELETE empty.  Absent keys are none. -/
structure EditParams where
  html : Option String
  layout : Option String
  to_index : Option Int
deriving DecidableEq, Repr

/-- models.py PendingEdit. -/
structure PendingEdit where
  edit_id : String
  slide_index : Int
  operation : String
  params : EditParams
  preview : String
deriving DecidableEq, Repr

/-- Dictionary form of a PendingEdit (all five keys always present). -/
structure PendingEditDict where
  edit_id : String
  slide_index : Int
  operation : String
  params : EditParams
  preview : String
deriving DecidableEq, Repr

/-- models.py PendingEdit.to_dict. -/
def PendingEdit.to_dict (e : PendingEdit) : PendingEditDict :=
  { edit_id := e.edit_id, slide_index := e.slide_index, operation := e.operation,
    params := e.params, preview := e.preview }

/-- models.py PendingEdit.from_dict. -/
def PendingEdit.from_dict (d : PendingEditDict) : PendingEdit :=
  { edit_id := d.edit_id, slide_index := d.slide_index, operation := d.operation,
    params := d.params, preview := d.preview }

/-- One entry of session.context_files (a dict with filename and text). -/
structure ContextFile where
  filename : String
  text : String
deriving DecidableEq, Repr

/-- session.style_template payload: filename, text, screenshots. The
screenshot blobs are opaque strings. -/
structure StyleTemplate where
  filename : String
  text : Option String
  screenshots : List String
deriving DecidableEq, Repr

/-- session.py PresentationSession.  Timestamps are their isoformat
strings (opaque here except for ordering in the retention sweep). -/
structure PresentationSession where
  session_id : String
  presentation : Option Presentation
  pending_edits : List PendingEdit
  applied_edits : List PendingEditDict
  context_files : List ContextFile
  style_template : Option StyleTemplate
  is_continuation : Bool
  claude_session_id : Option String
  created_at : String
  updated_at : String
deriving DecidableEq, Repr

/-- Python truthiness of an optional session-id string: None and the
empty string are falsy. -/
def truthyId : Option String → Option String
  | none => none
  | some s => if s = "" then none else some s

/-- The PresentationSession constructor: session_id or str(uuid.uuid4()),
with the fresh uuid and the current time passed in explicitly. -/
def PresentationSession.new (sid : Option String) (freshId now : String) :
    PresentationSession :=
  { session_id := (truthyId sid).getD freshId
    presentation := none
    pending_edits := []
    applied_edits := []
    context_files := []
    style_template := none
    is_continuation := false
    claude_session_id := none
    created_at := now
    updated_at := now }

/-- Dictionary form of a PresentationSession (to_dict output). -/
structure SessionDict where
  session_id : String
  presentation : Option PresentationDict
  pending_edits : List PendingEditDict
  applied_edits : List PendingEditDict
  context_files : List ContextFile
  style_template : Option StyleTemplate
  is_continuation : Bool
  claude_session_id : Option String
  created_at : String
  updated_at : String
deriving DecidableEq, Repr

/-- session.py PresentationSession.to_dict. -/
def PresentationSession.to_dict (s : PresentationSession) : SessionDict :=
  { session_id := s.session_id
    presentation := s.presentation.map Presentation.to_dict
    pending_edits := s.pending_edits.map PendingEdit.to_dict
    applied_edits := s.applied_edits
    context_files := s.context_files
    style_template := s.style_template
    is_continuation := s.is_continuation
    claude_session_id := s.claude_session_id
    created_at := s.created_at
    updated_at := s.updated_at }

/-- session.py PresentationSession.from_dict.  A raise inside
Presentation.from_dict propagates (none); datetime.fromisoformat on a
string produced by isoformat is the identity in this model. -/
def PresentationSession.from_dict (d : SessionDict) : Option PresentationSession :=
  match d.presentation with
  | some pd =>
    match Presentation.from_dict pd with
    | none => none
    | some p => some
      { session_id := d.session_id
        presentation := some p
        pending_edits := d.pending_edits.map PendingEdit.from_dict
        applied_edits := d.applied_edits
        context_files := d.context_files
        style_template := d.style_template
        is_continuation := d.is_continuation
        claude_session_id := d.claude_session_id
        created_at := d.created_at
        updated_at := d.updated_at }
  | none => some
      { session_id := d.session_id
        presentation := none
        pending_edits := d.pending_edits.map PendingEdit.from_dict
        applied_edits := d.applied_edits
        context_files := d.context_files
        style_template := d.style_template
        is_continuation := d.is_continuation
        claude_session_id := d.claude_session_id
        created_at := d.created_at
        updated_at := d.updated_at }

/-- Association-list lookup, modelling a Python dict read (or a SELECT
by primary key) keyed by session id. -/
def assocFind {α : Type} (id : String) : List (String × α) → Option α
  | [] => none
  | (k, v) :: t => if k = id then some v else assocFind id t

/-- Association-list write, modelling a Python dict assignment (or an
INSERT OR REPLACE) keyed by session id. -/
def assocSet {α : Type} (id : String) (v : α) (l : List (String × α)) :
    List (String × α) :=
  (id, v) :: l.filter fun kv => kv.1 != id

/-- One row of the sessions table in sessions.db. -/
structure DbRow where
  session_id : String
  created_at : String
  updated_at : String
  claude_session_id : Option String
deriving DecidableEq, Repr

/-- SELECT by primary key on the sessions table. -/
def dbFind (id : String) : List DbRow → Option DbRow
  | [] => none
  | r :: t => if r.session_id = id then some r else dbFind id t

/-- INSERT OR REPLACE on the sessions table. -/
def dbSet (row : DbRow) (l : List DbRow) : List DbRow :=
  row :: l.filter fun r => r.session_id != row.session_id

/-- The metadata row _save_to_db writes for a session. -/
def dbRowOf (s : PresentationSession) : DbRow :=
  { session_id := s.session_id, created_at := s.created_at,
    updated_at := s.updated_at, claude_session_id := s.claude_session_id }

/-- session.py SessionManager state: the in-memory cache (_sessions),
the per-session JSON documents under sessions_data/ (disk), and the
sessions table in sessions.db (db). -/
structure ManagerState where
  cache : List (String × PresentationSession)
  disk : List (String × SessionDict)
  db : List DbRow
deriving DecidableEq, Repr

/-- session.py SessionManager._save_to_disk: write the session's full
document blob. -/
def ManagerState.save_to_disk (m : ManagerState) (s : PresentationSession) :
    ManagerState :=
  { m with disk := assocSet s.session_id s.to_dict m.disk }

/-- session.py SessionManager._save_to_db: write the compact index
record. -/
def ManagerState.save_to_db (m : ManagerState) (s : PresentationSession) :
    ManagerState :=
  { m with db := dbSet (dbRowOf s) m.db }

/-- session.py SessionManager._load_from_disk: read and deserialize the
document blob; any error (including a from_dict raise) yields None. -/
def ManagerState.load_from_disk (m : ManagerState) (id : String) :
    Option PresentationSession :=
  match assocFind id m.disk with
  | none => none
  | some d => PresentationSession.from_dict d

/-- The create-new tail of get_or_create_session: construct the session,
cache it, and write it to the SQLite index (only). -/
def createNewSession (m : ManagerState) (sid : Option String)
    (freshId now : String) : ManagerState × PresentationSession :=
  let s := PresentationSession.new sid freshId now
  (((ManagerState.save_to_db
      { m with cache := assocSet s.session_id s m.cache } s)), s)

/-- session.py SessionManager.get_or_create_session.  freshId stands for
the uuid4 a brand-new session would receive, now for datetime.now(). -/
def get_or_create_session (m : ManagerState) (sid : Option String)
    (freshId now : String) : ManagerState × PresentationSession :=
  match truthyId sid with
  | some id =>
    match assocFind id m.cache with
    | some s => (m, s)
    | none =>
      match m.load_from_disk id with
      | some s => ({ m with cache := assocSet id s m.cache }, s)
      | none => createNewSession m sid freshId now
  | none => createNewSession m sid freshId now

/-- session.py SessionManager.save_session: stamp updated_at, update the
cache, write the document blob, write the index record. -/
def save_session (m : ManagerState) (s : PresentationSession) (now : String) :
    ManagerState :=
  let s2 := { s with updated_at := now }
  ManagerState.save_to_db
    (ManagerState.save_to_disk
      { m with cache := assocSet s2.session_id s2 m.cache } s2) s2

/-- session.py SessionManager.load_session: cache first, else disk
(populating the cache), else not found. -/
def load_session (m : ManagerState) (id : String) :
    ManagerState × Option PresentationSession :=
  match assocFind id m.cache with
  | some s => (m, some s)
  | none =>
    match m.load_from_disk id with
    | some s => ({ m with cache := assocSet id s m.cache }, some s)
    | none => (m, none)

/-- Lexicographic comparison of character lists, the order SQLite's
default collation induces on the stored isoformat text values. -/
def charListLt : List Char → List Char → Bool
  | [], [] => false
  | [], _ :: _ => true
  | _ :: _, [] => false
  | a :: as, b :: bs => if a < b then true else if b < a then false else charListLt as bs

/-- Textual less-than on timestamp strings. -/
def strLt (a b : String) : Bool := charListLt a.data b.data

/-- The SELECT in cleanup_old_sessions: ids of index rows strictly older
than the cutoff (SQLite compares the isoformat strings textually). -/
def expiredIds (m : ManagerState) (cutoff : String) : List String :=
  (m.db.filter fun r => strLt r.updated_at cutoff).map DbRow.session_id

/-- One iteration of the cleanup loop: drop the id from the in-memory
cache, delete its document directory if it exists, delete its index
row. -/
def removeSessionEverywhere (m : ManagerState) (id : String) : ManagerState :=
  { cache := m.cache.filter fun kv => kv.1 != id
    disk := m.disk.filter fun kv => kv.1 != id
    db := m.db.filter fun r => r.session_id != id }

/-- session.py SessionManager.cleanup_old_sessions: sweep every expired
session out of cache, disk and db, returning the cleaned count. -/
def cleanup_old_sessions (m : ManagerState) (cutoff : String) :
    ManagerState × Nat :=
  let old := expiredIds m cutoff
  (old.foldl removeSessionEverywhere m, old.length)

/-- The result dict a tool returns.  Each field models one possible key;
none models an absent key (success is Option Bool for the same
reason). -/
structure ToolResult where
  success : Option Bool := none
  error : Option String := none
  title : Option String := none
  slide_count : Option Nat := none
  slide_index : Option Int := none
  edit_id : Option String := none
  from_index : Option Int := none
  to_index : Option Int := none
  applied_count : Option Nat := none
  total_slides : Option Nat := none
deriving DecidableEq, Repr

/-- Python list.insert semantics: a negative index counts from the end
(clamped at 0), a too-large index appends. -/
def pyInsert (l : List Slide) (i : Int) (x : Slide) : List Slide :=
  let n : Int := l.length
  let j : Int := if i < 0 then max 0 (n + i) else min i n
  l.insertIdx j.toNat x

/-- The re-index pass "for i, s in enumerate(slides): s.index = i",
starting the enumeration at k. -/
def reindexFrom (k : Nat) : List Slide → List Slide
  | [] => []
  | s :: rest => { s with index := (k : Int) } :: reindexFrom (k + 1) rest

/-- Re-index the whole slide sequence to 0..n-1 by position. -/
def reindexSlides (l : List Slide) : List Slide := reindexFrom 0 l

/-- agent.py tool_create_presentation. -/
def tool_create_presentation (sess : Option PresentationSession)
    (title : Option String) : Option PresentationSession × ToolResult :=
  match sess with
  | none => (none, { error := some "No active session" })
  | some s =>
    let t := title.getD "Untitled Presentation"
    (some { s with presentation := some { title := t, slides := [], theme := [] }
                   pending_edits := []
                   applied_edits := [] },
     { success := some true, title := some t, slide_count := some 0 })

/-- agent.py tool_add_slide.  freshId stands for the uuid4 given to the
new pending edit. -/
def tool_add_slide (sess : Option PresentationSession) (html : Option String)
    (position : Option Int) (layout_arg : Option String) (freshId : String) :
    Option PresentationSession × ToolResult :=
  match sess with
  | none => (none, { error := some "No active session" })
  | some s =>
    match s.presentation with
    | none => (some s, { error := some "No presentation created. Use create_presentation first." })
    | some p =>
      let htmlStr := html.getD ""
      let layout_str := layout_arg.getD "blank"
      let layout := (slideLayoutOfString layout_str).getD SlideLayout.blank
      let pending_add_count :=
        (s.pending_edits.filter fun e => e.operation == "ADD").length
      let current_slide_count := p.slides.length
      let index : Int :=
        match position with
        | none => ((current_slide_count + pending_add_count : Nat) : Int)
        | some pos =>
          if pos ≥ ((current_slide_count + pending_add_count : Nat) : Int) then
            ((current_slide_count + pending_add_count : Nat) : Int)
          else max 0 pos
      let edit : PendingEdit :=
        { edit_id := freshId
          slide_index := index
          operation := "ADD"
          params := { html := some htmlStr, layout := some layout.value, to_index := none }
          preview := "Add slide at position " ++ toString (index + 1) }
      (some { s with pending_edits := s.pending_edits ++ [edit] },
       { success := some true, slide_index := some index, edit_id := some freshId })

/-- agent.py tool_update_slide. -/
def tool_update_slide (sess : Option PresentationSession)
    (slide_index : Option Int) (html : Option String) (freshId : String) :
    Option PresentationSession × ToolResult :=
  match sess with
  | none => (none, { error := some "No active session" })
  | some s =>
    match s.presentation with
    | none => (some s, { error := some "No presentation loaded" })
    | some p =>
      let idx := slide_index.getD 0
      if idx < 0 ∨ idx ≥ (p.slides.length : Int) then
        (some s, { error := some ("Invalid slide index: " ++ toString idx) })
      else
        let edit : PendingEdit :=
          { edit_id := freshId
            slide_index := idx
            operation := "UPDATE"
            params := { html := some (html.getD ""), layout := none, to_index := none }
            preview := "Update slide " ++ toString (idx + 1) }
        (some { s with pending_edits := s.pending_edits ++ [edit] },
         { success := some true, slide_index := some idx, edit_id := some freshId })

/-- agent.py tool_delete_slide. -/
def tool_delete_slide (sess : Option PresentationSession)
    (slide_index : Option Int) (freshId : String) :
    Option PresentationSession × ToolResult :=
  match sess with
  | none => (none, { error := some "No active session" })
  | some s =>
    match s.presentation with
    | none => (some s, { error := some "No presentation loaded" })
    | some p =>
      let idx := slide_index.getD 0
      if idx < 0 ∨ idx ≥ (p.slides.length : Int) then
        (some s, { error := some ("Invalid slide index: " ++ toString idx) })
      else
        let edit : PendingEdit :=
          { edit_id := freshId
            slide_index := idx
            operation := "DELETE"
            params := { html := none, layout := none, to_index := none }
            preview := "Delete slide " ++ toString (idx + 1) }
        (some { s with pending_edits := s.pending_edits ++ [edit] },
         { success := some true, slide_index := some idx, edit_id := some freshId })

/-- agent.py tool_reorder_slides.  Note the success dict carries
from_index and to_index but no edit_id key. -/
def tool_reorder_slides (sess : Option PresentationSession)
    (from_index to_index : Option Int) (freshId : String) :
    Option PresentationSession × ToolResult :=
  match sess with
  | none => (none, { error := some "No active session" })
  | some s =>
    match s.presentation with
    | none => (some s, { error := some "No presentation loaded" })
    | some p =>
      let fi := from_index.getD 0
      let ti := to_index.getD 0
      let num_slides := p.slides.length
      if fi < 0 ∨ fi ≥ (num_slides : Int) then
        (some s, { error := some ("Invalid from_index: " ++ toString fi) })
      else if ti < 0 ∨ ti ≥ (num_slides : Int) then
        (some s, { error := some ("Invalid to_index: " ++ toString ti) })
      else
        let edit : PendingEdit :=
          { edit_id := freshId
            slide_index := fi
            operation := "REORDER"
            params := { html := none, layout := none, to_index := some ti }
            preview := "Move slide " ++ toString (fi + 1) ++ " to position " ++ toString (ti + 1) }
        (some { s with pending_edits := s.pending_edits ++ [edit] },
         { success := some true, from_index := some fi, to_index := some ti })

/-- One edit application inside the commit loop of tool_commit_edits.
none models an exception raised while applying (only possible for an
ADD whose stored layout string is not a SlideLayout value; the raise
happens before any mutation, so the state is unchanged).  Out-of-range
UPDATE/DELETE/REORDER targets fall through their guard to a silent
no-op, and an unrecognized operation string matches no branch. -/
def applyEdit (p : Presentation) (e : PendingEdit) : Option Presentation :=
  if e.operation = "ADD" then
    match slideLayoutOfString (e.params.layout.getD "blank") with
    | none => none
    | some lay =>
      let slide : Slide :=
        { index := e.slide_index, html := e.params.html.getD "", layout := lay, notes := "" }
      let slides :=
        if e.slide_index ≥ (p.slides.length : Int) then p.slides ++ [slide]
        else pyInsert p.slides e.slide_index slide
      some { p with slides := reindexSlides slides }
  else if e.operation = "UPDATE" then
    if h : 0 ≤ e.slide_index ∧ e.slide_index < (p.slides.length : Int) then
      let i := e.slide_index.toNat
      let old := p.slides.get ⟨i, by omega⟩
      some { p with slides := p.slides.set i { old with html := e.params.html.getD "" } }
    else some p
  else if e.operation = "DELETE" then
    if 0 ≤ e.slide_index ∧ e.slide_index < (p.slides.length : Int) then
      some { p with slides := reindexSlides (p.slides.eraseIdx e.slide_index.toNat) }
    else some p
  else if e.operation = "REORDER" then
    let ti := e.params.to_index.getD 0
    if h : 0 ≤ e.slide_index ∧ e.slide_index < (p.slides.length : Int) then
      let i := e.slide_index.toNat
      let slide := p.slides.get ⟨i, by omega⟩
      let rest := p.slides.eraseIdx i
      some { p with slides := reindexSlides (pyInsert rest ti slide) }
    else some p
  else some p

/-- The for-loop of tool_commit_edits: apply each pending edit inside
its own failure boundary; an edit that did not raise is recorded in the
audit trail and counted, a raising edit is logged and skipped. -/
def commitLoop (p : Presentation) (applied : List PendingEditDict)
    (count : Nat) : List PendingEdit → Presentation × List PendingEditDict × Nat
  | [] => (p, applied, count)
  | e :: rest =>
    match applyEdit p e with
    | some p2 => commitLoop p2 (applied ++ [e.to_dict]) (count + 1) rest
    | none => commitLoop p applied count rest

/-- agent.py tool_commit_edits (the session-state part; the trailing
session_manager.save_session call is modelled separately by
save_session on ManagerState). -/
def tool_commit_edits (sess : Option PresentationSession) :
    Option PresentationSession × ToolResult :=
  match sess with
  | none => (none, { error := some "No active session" })
  | some s =>
    match s.presentation with
    | none => (some s, { error := some "No presentation created" })
    | some p =>
      let r := commitLoop p s.applied_edits 0 s.pending_edits
      let s2 := { s with presentation := some r.1
                         applied_edits := r.2.1
                         pending_edits := [] }
      (some s2,
       { success := some true, applied_count := some r.2.2,
         total_slides := some r.1.slides.length })

/-- The presentation transformation one commit call performs on a queue
(the audit accumulator and counter do not influence it). -/
def commitPres (p : Presentation) (q : List PendingEdit) : Presentation :=
  (commitLoop p [] 0 q).1

/-- The spec's re-index invariant: slides[i].index == i for every i. -/
def wellIndexed (l : List Slide) : Prop :=
  ∀ i, (h : i < l.length) → (l.get ⟨i, h⟩).index = (i : Int)

instance wellIndexedDecidable (l : List Slide) : Decidable (wellIndexed l) :=
  Nat.decidableBallLT l.length fun i h => (l.get ⟨i, h⟩).index = (i : Int)

theorem reindexFrom_length (l : List Slide) :
    ∀ k, (reindexFrom k l).length = l.length := by
  induction l with
  | nil => intro k; rfl
  | cons s t ih => intro k; simp [reindexFrom, ih]

theorem reindexFrom_get (l : List Slide) :
    ∀ (k i : Nat) (h : i < (reindexFrom k l).length),
      ((reindexFrom k l).get ⟨i, h⟩).index = ((k + i : Nat) : Int) := by
  induction l with
  | nil => intro k i h; simp [reindexFrom] at h
  | cons s t ih =>
    intro k i h
    cases i with
    | zero => simp [reindexFrom]
    | succ j =>
      have h2 : j < (reindexFrom (k + 1) t).length := by
        simpa [reindexFrom] using h
      have := ih (k + 1) j h2
      simpa [reindexFrom, Nat.add_assoc, Nat.add_comm 1 j] using this

/-- Re-indexing always restores the invariant. -/
theorem wellIndexed_reindexSlides (l : List Slide) : wellIndexed (reindexSlides l) := by
  intro i h
  simpa using reindexFrom_get l 0 i h

/-- A set that preserves the element's index field preserves the
invariant (the UPDATE branch of the commit loop). -/
theorem wellIndexed_set_same_index (l : List Slide) (i : Nat) (x : Slide)
    (hw : wellIndexed l) (hi : i < l.length) (hx : x.index = (l.get ⟨i, hi⟩).index) :
    wellIndexed (l.set i x) := by
  intro j hj
  have hj' : j < l.length := by simpa using hj
  by_cases hji : j = i
  · subst hji
    have : (l.set j x).get ⟨j, hj⟩ = x := by
      simp [List.getElem_set_self]
    rw [this, hx]
    exact hw j hj'
  · have : (l.set i x).get ⟨j, hj⟩ = l.get ⟨j, hj'⟩ := by
      simp [List.getElem_set_ne (fun h => hji h.symm)]
    rw [this]
    exact hw j hj'

/-- Applying one edit that does not raise preserves the re-index
invariant. -/
theorem applyEdit_wellIndexed (p : Presentation) (e : PendingEdit)
    (hw : wellIndexed p.slides) (q : Presentation) (hq : applyEdit p e = some q) :
    wellIndexed q.slides := by
  unfold applyEdit at hq
  by_cases hadd : e.operation = "ADD"
  · rw [if_pos hadd] at hq
    cases hsl : slideLayoutOfString (e.params.layout.getD "blank") with
    | none => rw [hsl] at hq; cases hq
    | some lay =>
      rw [hsl] at hq
      injection hq with hq
      subst hq
      exact wellIndexed_reindexSlides _
  · rw [if_neg hadd] at hq
    by_cases hupd : e.operation = "UPDATE"
    · rw [if_pos hupd] at hq
      split at hq
      · next h =>
        injection hq with hq
        subst hq
        exact wellIndexed_set_same_index _ _ _ hw (by omega) rfl
      · injection hq with hq; subst hq; exact hw
    · rw [if_neg hupd] at hq
      by_cases hdel : e.operation = "DELETE"
      · rw [if_pos hdel] at hq
        split at hq
        · injection hq with hq; subst hq; exact wellIndexed_reindexSlides _
        · injection hq with hq; subst hq; exact hw
      · rw [if_neg hdel] at hq
        by_cases hre : e.operation = "REORDER"
        · rw [if_pos hre] at hq
          split at hq
          · injection hq with hq; subst hq; exact wellIndexed_reindexSlides _
          · injection hq with hq; subst hq; exact hw
        · rw [if_neg hre] at hq
          injection hq with hq; subst hq; exact hw

/-- The whole commit loop preserves the re-index invariant. -/
theorem commitLoop_wellIndexed (q : List PendingEdit) :
    ∀ (p : Presentation) (applied : List PendingEditDict) (count : Nat),
      wellIndexed p.slides →
      wellIndexed (commitLoop p applied count q).1.slides := by
  induction q with
  | nil => intro p a c hw; simpa [commitLoop] using hw
  | cons e rest ih =>
    intro p a c hw
    cases hae : applyEdit p e with
    | none => simpa [commitLoop, hae] using ih p a c hw
    | some p2 =>
      have hw2 := applyEdit_wellIndexed p e hw p2 hae
      simpa [commitLoop, hae] using ih p2 (a ++ [e.to_dict]) (c + 1) hw2

theorem foldl_commitPres_wellIndexed (qs : List (List PendingEdit)) :
    ∀ p : Presentation, wellIndexed p.slides →
      wellIndexed (qs.foldl commitPres p).slides := by
  induction qs with
  | nil => intro p hw; simpa using hw
  | cons q rest ih =>
    intro p hw
    exact ih (commitPres p q) (commitLoop_wellIndexed q p [] 0 hw)

/-- C4: for every sequence of commits whose queued edits are any mix of
ADD, DELETE and REORDER operations, after each commit (i.e. after every
prefix of the sequence of commit calls) slides[i].index == i holds for
every position i of the presentation's slide sequence.  The invariant
is in fact preserved regardless of the mix of operations. -/
theorem C4_reindex_invariant (p : Presentation) (qs : List (List PendingEdit))
    (hw : wellIndexed p.slides)
    (hops : ∀ q ∈ qs, ∀ e ∈ q,
      e.operation = "ADD" ∨ e.operation = "DELETE" ∨ e.operation = "REORDER")
    (n : Nat) :
    wellIndexed ((qs.take n).foldl commitPres p).slides :=
  foldl_commitPres_wellIndexed (qs.take n) p hw

def c4AddEdit : PendingEdit :=
  { edit_id := "a1"
    slide_index := 0
    operation := "ADD"
    params := { html := some "A", layout := some "blank", to_index := none }
    preview := "Add slide at position 1" }

def c4DelEdit : PendingEdit :=
  { edit_id := "a2"
    slide_index := 0
    operation := "DELETE"
    params := { html := none, layout := none, to_index := none }
    preview := "Delete slide 1" }

def c4Start : Presentation := { title := "T", slides := [], theme := [] }

/-- Witness for C4 at a concrete two-commit sequence. -/
theorem C4_reindex_invariant_witness :
    wellIndexed ((([[c4AddEdit], [c4AddEdit, c4DelEdit]].take 2).foldl
      commitPres c4Start).slides) :=
  C4_reindex_invariant c4Start [[c4AddEdit], [c4AddEdit, c4DelEdit]]
    (by decide) (by decide) 2

/-- C10: create_presentation replaces any existing presentation with a
fresh empty one bearing the given title (defaulting to "Untitled
Presentation"), clears the pending-edit queue and the applied-edit
audit trail, and leaves context_files, style_template and the
claude_session_id handle (and everything else) unchanged. -/
theorem C10_create_presentation_frame (s : PresentationSession) (title : Option String) :
    tool_create_presentation (some s) title =
      (some { s with
                presentation := some
                  { title := title.getD "Untitled Presentation", slides := [], theme := [] }
                pending_edits := []
                applied_edits := [] },
       { success := some true
         title := some (title.getD "Untitled Presentation")
         slide_count := some 0 }) := rfl

/-- C9: staging an UPDATE or a DELETE with a slide index outside
[0, committed slide count) returns the invalid-index error and leaves
the session (in particular its pending queue) unchanged. -/
theorem C9_stage_update_delete_invalid_index (s : PresentationSession)
    (p : Presentation) (hp : s.presentation = some p) (idx : Int)
    (hidx : idx < 0 ∨ (p.slides.length : Int) ≤ idx) (html freshId : String) :
    tool_update_slide (some s) (some idx) (some html) freshId =
      (some s, { error := some ("Invalid slide index: " ++ toString idx) }) ∧
    tool_delete_slide (some s) (some idx) freshId =
      (some s, { error := some ("Invalid slide index: " ++ toString idx) }) := by
  constructor
  · simp only [tool_update_slide, hp, Option.getD_some]
    rw [if_pos hidx]
  · simp only [tool_delete_slide, hp, Option.getD_some]
    rw [if_pos hidx]

def c9Session : PresentationSession :=
  { session_id := "s9"
    presentation := some
      { title := "T"
        slides := [{ index := 0, html := "A", layout := .blank, notes := "" },
                   { index := 1, html := "B", layout := .blank, notes := "" }]
        theme := [] }
    pending_edits := []
    applied_edits := []
    context_files := []
    style_template := none
    is_continuation := false
    claude_session_id := none
    created_at := "t0"
    updated_at := "t0" }

/-- Witness for C9: stage_update(slide_index=5) against the 2-slide
presentation is rejected without enqueueing. -/
theorem C9_stage_update_delete_invalid_index_witness :
    tool_update_slide (some c9Session) (some 5) (some "x") "u9" =
      (some c9Session, { error := some "Invalid slide index: 5" }) ∧
    tool_delete_slide (some c9Session) (some 5) "u9" =
      (some c9Session, { error := some "Invalid slide index: 5" }) := by
  have h := C9_stage_update_delete_invalid_index c9Session
    (c9Session.presentation.getD { title := "", slides := [], theme := [] })
    rfl 5 (by decide) "x" "u9"
  simpa using h

def c6Session : PresentationSession :=
  { session_id := "s6"
    presentation := some
      { title := "T"
        slides := [{ index := 0, html := "A", layout := .blank, notes := "" },
                   { index := 1, html := "B", layout := .blank, notes := "" },
                   { index := 2, html := "C", layout := .blank, notes := "" }]
        theme := [] }
    pending_edits := []
    applied_edits := []
    context_files := []
    style_template := none
    is_continuation := false
    claude_session_id := none
    created_at := "t0"
    updated_at := "t0" }

/-- C6 counterexample: a successful stage_reorder call (both indices in
range) returns a result dict with no edit_id key, contradicting the
claim that the result contains the edit_id of the new pending edit. -/
theorem C6_counterexample :
    ((tool_reorder_slides (some c6Session) (some 0) (some 2) "r6").2).success = some true ∧
    ((tool_reorder_slides (some c6Session) (some 0) (some 2) "r6").2).edit_id = none := by
  decide

/-- C6 amended: a successful stage_reorder appends a new REORDER
pending edit carrying the fresh edit_id, and its result contains
from_index and to_index but no edit_id key. -/
theorem C6_reorder_result (s : PresentationSession) (p : Presentation)
    (hp : s.presentation = some p) (fi ti : Int)
    (hfi : 0 ≤ fi ∧ fi < (p.slides.length : Int))
    (hti : 0 ≤ ti ∧ ti < (p.slides.length : Int)) (freshId : String) :
    tool_reorder_slides (some s) (some fi) (some ti) freshId =
      (some { s with pending_edits := s.pending_edits ++
          [{ edit_id := freshId
             slide_index := fi
             operation := "REORDER"
             params := { html := none, layout := none, to_index := some ti }
             preview := "Move slide " ++ toString (fi + 1) ++ " to position " ++
               toString (ti + 1) }] },
       { success := some true, from_index := some fi, to_index := some ti }) := by
  have hfi2 : ¬(fi < 0 ∨ fi ≥ (p.slides.length : Int)) := by omega
  have hti2 : ¬(ti < 0 ∨ ti ≥ (p.slides.length : Int)) := by omega
  simp only [tool_reorder_slides, hp, Option.getD_some]
  rw [if_neg hfi2, if_neg hti2]

/-- Witness for the amended C6 at the concrete 3-slide session. -/
theorem C6_reorder_result_witness :
    tool_reorder_slides (some c6Session) (some 0) (some 2) "r6" =
      (some { c6Session with pending_edits :=
          [{ edit_id := "r6"
             slide_index := 0
             operation := "REORDER"
             params := { html := none, layout := none, to_index := some 2 }
             preview := "Move slide 1 to position 3" }] },
       { success := some true, from_index := some 0, to_index := some 2 }) := by
  have h := C6_reorder_result c6Session
    (c6Session.presentation.getD { title := "", slides := [], theme := [] })
    rfl 0 2 (by decide) (by decide) "r6"
  simpa using h

/-- C3 counterexample: Slide.from_dict on a dictionary whose layout
value is unknown raises (returns none) instead of coercing the layout
to BLANK, so the coercion does not hold on every construction path. -/
theorem C3_counterexample :
    Slide.from_dict { index := 0, html := "x", layout := some "fancy", notes := none } =
      none := by
  decide

/-- C3 amended: an unknown layout string coerces to BLANK when staging
an ADD (the staged edit stores layout "blank"), but deserializing a
slide from its dictionary form fails (raises ValueError, modelled as
none) for every unknown layout value; only a missing layout key
defaults to blank there. -/
theorem C3_layout_coercion (ls : String) (hls : slideLayoutOfString ls = none)
    (s : PresentationSession) (p : Presentation) (hp : s.presentation = some p)
    (html freshId : String) :
    (((tool_add_slide (some s) (some html) none (some ls) freshId).1).map
        fun s2 => s2.pending_edits.map fun e => e.params.layout) =
      some ((s.pending_edits.map fun e => e.params.layout) ++ [some "blank"]) ∧
    (∀ d : SlideDict, d.layout = some ls → Slide.from_dict d = none) := by
  constructor
  · simp [tool_add_slide, hp, hls, SlideLayout.value]
  · intro d hd
    simp [Slide.from_dict, hd, hls]

/-- Witness for the amended C3 at the unknown layout string "fancy". -/
theorem C3_layout_coercion_witness :
    (((tool_add_slide (some c9Session) (some "h") none (some "fancy") "a3").1).map
        fun s2 => s2.pending_edits.map fun e => e.params.layout) =
      some [some "blank"] ∧
    Slide.from_dict { index := 0, html := "x", layout := some "fancy", notes := none } =
      none := by
  have h := C3_layout_coercion "fancy" (by decide) c9Session
    (c9Session.presentation.getD { title := "", slides := [], theme := [] })
    rfl "h" "a3"
  exact ⟨by simpa using h.1, h.2 _ rfl⟩

def c5Start : PresentationSession :=
  { session_id := "s5"
    presentation := some { title := "Deck", slides := [], theme := [] }
    pending_edits := []
    applied_edits := []
    context_files := []
    style_template := none
    is_continuation := false
    claude_session_id := none
    created_at := "t0"
    updated_at := "t0" }

def c5Step1 : Option PresentationSession × ToolResult :=
  tool_add_slide (some c5Start) (some "A") none none "e1"

def c5Step2 : Option PresentationSession × ToolResult :=
  tool_add_slide c5Step1.1 (some "B") none none "e2"

def c5Step3 : Option PresentationSession × ToolResult :=
  tool_add_slide c5Step2.1 (some "C") none none "e3"

/-- C5: staging three ADDs with no position against a session whose
presentation has zero committed slides resolves their target indices to
0, 1, 2 (each ADD accounting for the ADDs already queued), and
committing the queue yields three slides at indices 0, 1, 2 in
submission order. -/
theorem C5_add_batch_positions :
    c5Step1.2.slide_index = some 0 ∧
    c5Step2.2.slide_index = some 1 ∧
    c5Step3.2.slide_index = some 2 ∧
    (((tool_commit_edits c5Step3.1).1.bind fun s => s.presentation).map
        fun p => p.slides.map fun x => (x.index, x.html)) =
      some [(0, "A"), (1, "B"), (2, "C")] := by
  decide

def c1Session : PresentationSession :=
  { session_id := "s1"
    presentation := some
      { title := "T"
        slides := [{ index := 0, html := "old", layout := .blank, notes := "" }]
        theme := [] }
    pending_edits :=
      [{ edit_id := "d1"
         slide_index := 0
         operation := "DELETE"
         params := { html := none, layout := none, to_index := none }
         preview := "Delete slide 1" },
       { edit_id := "u1"
         slide_index := 0
         operation := "UPDATE"
         params := { html := some "new html", layout := none, to_index := none }
         preview := "Update slide 1" }]
    applied_edits := []
    context_files := []
    style_template := none
    is_continuation := false
    claude_session_id := none
    created_at := "t0"
    updated_at := "t0" }

/-- C1 counterexample: committing the queue [DELETE(0), UPDATE(0, "new
html")] against the 1-slide presentation returns applied_count = 2, not
1: the out-of-range UPDATE falls through its bounds guard as a silent
no-op but raises nothing, so the loop still counts and records it. -/
theorem C1_counterexample :
    ((tool_commit_edits (some c1Session)).2).applied_count = some 2 ∧
    ((tool_commit_edits (some c1Session)).2).applied_count ≠ some 1 := by
  decide

/-- C1 amended: after that commit the presentation has 0 slides and the
pending queue is empty, but applied_count = 2 and both edits (including
the no-op UPDATE) are recorded in the applied-edit audit trail. -/
theorem C1_partial_failure_commit :
    (((tool_commit_edits (some c1Session)).1.bind fun s => s.presentation).map
        fun p => p.slides.length) = some 0 ∧
    (((tool_commit_edits (some c1Session)).1).map fun s => s.pending_edits) = some [] ∧
    ((tool_commit_edits (some c1Session)).2).applied_count = some 2 ∧
    (((tool_commit_edits (some c1Session)).1).map fun s =>
        s.applied_edits.map fun e => e.edit_id) = some ["d1", "u1"] := by
  decide

theorem slideLayout_value_of_string (lay : SlideLayout) :
    slideLayoutOfString lay.value = some lay := by
  cases lay <;> rfl

theorem slide_dict_roundtrip (s : Slide) : Slide.from_dict s.to_dict = some s := by
  cases s with
  | mk i h lay n =>
    simp [Slide.to_dict, Slide.from_dict, slideLayout_value_of_string]

theorem slidesFromDicts_roundtrip (l : List Slide) :
    slidesFromDicts (l.map Slide.to_dict) = some l := by
  induction l with
  | nil => rfl
  | cons s t ih => simp [slidesFromDicts, slide_dict_roundtrip, ih]

theorem presentation_dict_roundtrip (p : Presentation) :
    Presentation.from_dict p.to_dict = some p := by
  cases p with
  | mk t sl th =>
    simp [Presentation.to_dict, Presentation.from_dict, slidesFromDicts_roundtrip]

theorem pending_edit_dict_roundtrip (e : PendingEdit) :
    PendingEdit.from_dict e.to_dict = e := rfl

theorem session_dict_roundtrip (s : PresentationSession) :
    PresentationSession.from_dict s.to_dict = some s := by
  cases s with
  | mk sid pres pend appl ctx sty cont cls ca ua =>
    cases pres with
    | none =>
      simp [PresentationSession.to_dict, PresentationSession.from_dict,
        List.map_map, show PendingEdit.from_dict ∘ PendingEdit.to_dict = id from rfl]
    | some p =>
      simp [PresentationSession.to_dict, PresentationSession.from_dict,
        presentation_dict_roundtrip, List.map_map,
        show PendingEdit.from_dict ∘ PendingEdit.to_dict = id from rfl]

theorem assocFind_set_self {α : Type} (id : String) (v : α) (l : List (String × α)) :
    assocFind id (assocSet id v l) = some v := by
  simp [assocFind, assocSet]

theorem assocFind_filter_ne_self {α : Type} (id : String) (l : List (String × α)) :
    assocFind id (l.filter fun kv => kv.1 != id) = none := by
  induction l with
  | nil => rfl
  | cons kv t ih =>
    by_cases h : kv.1 = id
    · simpa [List.filter_cons, h] using ih
    · simpa [List.filter_cons, h, assocFind] using ih

/-- C7: saving a session, evicting it from the in-memory cache, and
loading it back by session_id yields a session equal (as a whole, hence
in presentation title, slides with html/layout/notes in order, theme
map and applied-edit audit trail) to the saved one, i.e. the one whose
updated_at was stamped at save time.  Equivalently, from_dict inverts
to_dict (session_dict_roundtrip above). -/
theorem C7_save_evict_load_roundtrip (m : ManagerState) (s : PresentationSession)
    (now : String) :
    (load_session
        { save_session m s now with
          cache := (save_session m s now).cache.filter fun kv => kv.1 != s.session_id }
        s.session_id).2 =
      some { s with updated_at := now } := by
  simp [load_session, save_session, ManagerState.save_to_db,
    ManagerState.save_to_disk, ManagerState.load_from_disk,
    assocFind_filter_ne_self, assocFind_set_self, session_dict_roundtrip]

/-- C2 counterexample: get_or_create_session on a session_id that is in
neither the cache nor durable storage writes the new session's compact
index record (sessions.db) but leaves the document-blob mirror
(sessions_data/) untouched, so the brand-new session is NOT written to
both durable mirrors before being returned. -/
theorem C2_counterexample :
    (get_or_create_session ⟨[], [], []⟩ (some "s1") "f" "t0").1.disk = [] ∧
    dbFind "s1" (get_or_create_session ⟨[], [], []⟩ (some "s1") "f" "t0").1.db ≠
      none := by
  decide

theorem dbFind_set_self (row : DbRow) (l : List DbRow) :
    dbFind row.session_id (dbSet row l) = some row := by
  simp [dbFind, dbSet]

/-- C2 amended: on a cache miss with no durable document (or with no
usable session_id), get_or_create_session constructs the brand-new
session, caches it, and writes only the compact index record; the full
document mirror is left exactly as it was. -/
theorem C2_new_session_db_only (m : ManagerState) (sid : Option String)
    (freshId now : String)
    (hcache : ∀ id, truthyId sid = some id → assocFind id m.cache = none)
    (hdisk : ∀ id, truthyId sid = some id → m.load_from_disk id = none) :
    dbFind (get_or_create_session m sid freshId now).2.session_id
        (get_or_create_session m sid freshId now).1.db =
      some (dbRowOf (get_or_create_session m sid freshId now).2) ∧
    (get_or_create_session m sid freshId now).1.disk = m.disk ∧
    assocFind (get_or_create_session m sid freshId now).2.session_id
        (get_or_create_session m sid freshId now).1.cache =
      some (get_or_create_session m sid freshId now).2 := by
  have hnew : get_or_create_session m sid freshId now =
      createNewSession m sid freshId now := by
    unfold get_or_create_session
    cases htr : truthyId sid with
    | none => rfl
    | some id => simp only [hcache id htr, hdisk id htr]
  rw [hnew]
  refine ⟨?_, rfl, ?_⟩
  · exact dbFind_set_self _ _
  · exact assocFind_set_self _ _ _

/-- Witness for the amended C2 on the empty store with session_id
"s1". -/
theorem C2_new_session_db_only_witness :
    dbFind (get_or_create_session ⟨[], [], []⟩ (some "s1") "f" "t0").2.session_id
        (get_or_create_session ⟨[], [], []⟩ (some "s1") "f" "t0").1.db =
      some (dbRowOf (get_or_create_session ⟨[], [], []⟩ (some "s1") "f" "t0").2) ∧
    (get_or_create_session ⟨[], [], []⟩ (some "s1") "f" "t0").1.disk = [] ∧
    assocFind (get_or_create_session ⟨[], [], []⟩ (some "s1") "f" "t0").2.session_id
        (get_or_create_session ⟨[], [], []⟩ (some "s1") "f" "t0").1.cache =
      some (get_or_create_session ⟨[], [], []⟩ (some "s1") "f" "t0").2 :=
  C2_new_session_db_only ⟨[], [], []⟩ (some "s1") "f" "t0"
    (fun _ _ => rfl) (fun _ _ => rfl)

theorem assocFind_none_filter {α : Type} (id : String) (p : String × α → Bool)
    (l : List (String × α)) (h : assocFind id l = none) :
    assocFind id (l.filter p) = none := by
  induction l with
  | nil => rfl
  | cons kv t ih =>
    have hk : ¬kv.1 = id := by
      intro he
      simp [assocFind, he] at h
    have ht : assocFind id t = none := by
      simpa [assocFind, hk] using h
    by_cases hp : p kv
    · simpa [List.filter_cons, hp, assocFind, hk] using ih ht
    · simpa [List.filter_cons, hp] using ih ht

theorem dbFind_filter_ne_self (id : String) (l : List DbRow) :
    dbFind id (l.filter fun r => r.session_id != id) = none := by
  induction l with
  | nil => rfl
  | cons r t ih =>
    by_cases h : r.session_id = id
    · simpa [List.filter_cons, h] using ih
    · simpa [List.filter_cons, h, dbFind] using ih

theorem dbFind_none_filter (id : String) (p : DbRow → Bool)
    (l : List DbRow) (h : dbFind id l = none) :
    dbFind id (l.filter p) = none := by
  induction l with
  | nil => rfl
  | cons r t ih =>
    have hk : ¬r.session_id = id := by
      intro he
      simp [dbFind, he] at h
    have ht : dbFind id t = none := by
      simpa [dbFind, hk] using h
    by_cases hp : p r
    · simpa [List.filter_cons, hp, dbFind, hk] using ih ht
    · simpa [List.filter_cons, hp] using ih ht

/-- The triple of absence facts used below for the retention sweep. -/
def goneEverywhere (m : ManagerState) (id : String) : Prop :=
  assocFind id m.cache = none ∧ assocFind id m.disk = none ∧ dbFind id m.db = none

theorem remove_gone_step (m : ManagerState) (id : String) :
    goneEverywhere (removeSessionEverywhere m id) id :=
  ⟨assocFind_filter_ne_self id m.cache,
   assocFind_filter_ne_self id m.disk,
   dbFind_filter_ne_self id m.db⟩

theorem remove_preserves_gone (m : ManagerState) (id j : String)
    (h : goneEverywhere m id) : goneEverywhere (removeSessionEverywhere m j) id :=
  ⟨assocFind_none_filter id _ m.cache h.1,
   assocFind_none_filter id _ m.disk h.2.1,
   dbFind_none_filter id _ m.db h.2.2⟩

theorem foldl_remove_preserves_gone (ids : List String) :
    ∀ (m : ManagerState) (id : String), goneEverywhere m id →
      goneEverywhere (ids.foldl removeSessionEverywhere m) id := by
  induction ids with
  | nil => intro m id h; exact h
  | cons j t ih =>
    intro m id h
    exact ih (removeSessionEverywhere m j) id (remove_preserves_gone m id j h)

theorem foldl_remove_gone (ids : List String) :
    ∀ (m : ManagerState) (id : String), id ∈ ids →
      goneEverywhere (ids.foldl removeSessionEverywhere m) id := by
  induction ids with
  | nil => intro m id h; cases h
  | cons j t ih =>
    intro m id hid
    by_cases hj : id = j
    · subst hj
      exact foldl_remove_preserves_gone t _ id (remove_gone_step m id)
    · rcases List.mem_cons.mp hid with h | h
      · exact absurd h hj
      · exact ih _ id h

theorem foldl_remove_db_sub (ids : List String) :
    ∀ (m : ManagerState) (r : DbRow),
      r ∈ (ids.foldl removeSessionEverywhere m).db → r ∈ m.db ∧ r.session_id ∉ ids := by
  induction ids with
  | nil => intro m r h; exact ⟨h, by simp⟩
  | cons j t ih =>
    intro m r h
    obtain ⟨h1, h2⟩ := ih (removeSessionEverywhere m j) r h
    have h3 := List.mem_filter.mp h1
    refine ⟨h3.1, ?_⟩
    simp only [List.mem_cons, not_or]
    exact ⟨by simpa using h3.2, h2⟩

/-- After one sweep no index row is still expired, so a second sweep
finds nothing. -/
theorem expiredIds_after_cleanup (m : ManagerState) (cutoff : String) :
    expiredIds ((expiredIds m cutoff).foldl removeSessionEverywhere m) cutoff = [] := by
  have hnil : ((expiredIds m cutoff).foldl removeSessionEverywhere m).db.filter
      (fun r => strLt r.updated_at cutoff) = [] := by
    rw [List.filter_eq_nil_iff]
    intro r hr hexp
    obtain ⟨hmem, hnot⟩ := foldl_remove_db_sub (expiredIds m cutoff) m r hr
    exact hnot (List.mem_map.mpr ⟨r, List.mem_filter.mpr ⟨hmem, hexp⟩, rfl⟩)
  calc expiredIds ((expiredIds m cutoff).foldl removeSessionEverywhere m) cutoff
      = (((expiredIds m cutoff).foldl removeSessionEverywhere m).db.filter
          (fun r => strLt r.updated_at cutoff)).map DbRow.session_id := rfl
    _ = [] := by rw [hnil]; rfl

/-- C8: running the retention sweep twice over the same expired set
deletes each expired session exactly once: the first pass removes it
from the cache, the document store and the index and counts it, and
the second pass is a no-op returning 0 and leaving the state
unchanged. -/
theorem C8_cleanup_idempotent (m : ManagerState) (cutoff : String) :
    (cleanup_old_sessions m cutoff).2 = (expiredIds m cutoff).length ∧
    (∀ id ∈ expiredIds m cutoff,
      assocFind id (cleanup_old_sessions m cutoff).1.cache = none ∧
      assocFind id (cleanup_old_sessions m cutoff).1.disk = none ∧
      dbFind id (cleanup_old_sessions m cutoff).1.db = none) ∧
    cleanup_old_sessions (cleanup_old_sessions m cutoff).1 cutoff =
      ((cleanup_old_sessions m cutoff).1, 0) := by
  refine ⟨rfl, ?_, ?_⟩
  · intro id hid
    exact foldl_remove_gone (expiredIds m cutoff) m id hid
  · show cleanup_old_sessions ((expiredIds m cutoff).foldl removeSessionEverywhere m)
        cutoff = _
    unfold cleanup_old_sessions
    rw [expiredIds_after_cleanup]
    rfl

def c8Session : PresentationSession :=
  { session_id := "a"
    presentation := none
    pending_edits := []
    applied_edits := []
    context_files := []
    style_template := none
    is_continuation := false
    claude_session_id := none
    created_at := "0"
    updated_at := "0" }

def c8State : ManagerState :=
  { cache := [("a", c8Session)]
    disk := [("a", c8Session.to_dict)]
    db := [{ session_id := "a", created_at := "0", updated_at := "0",
             claude_session_id := none }] }

/-- Witness for C8 on a store holding one expired session. -/
theorem C8_cleanup_idempotent_witness :
    (cleanup_old_sessions c8State "9").2 = 1 ∧
    dbFind "a" (cleanup_old_sessions c8State "9").1.db = none ∧
    cleanup_old_sessions (cleanup_old_sessions c8State "9").1 "9" =
      ((cleanup_old_sessions c8State "9").1, 0) := by
  have h := C8_cleanup_idempotent c8State "9"
  refine ⟨?_, ?_, h.2.2⟩
  · rw [h.1]; decide
  · exact (h.2.1 "a" (by decide)).2.2

end PresentationApp
